import Mathlib

/-!
Verification of the clipboard classification and temp-file staging logic of
the flutter_paste_input plugin, shallowly embedded from
src/linux/flutter_paste_input_plugin.cc and
src/windows/flutter_paste_input_plugin.cpp.

OS calls (GTK clipboard waits, Win32 clipboard reads, file writes) are
modelled by recording their results in a snapshot value; the control flow
of the plugin functions is translated statement by statement.
-/

namespace PasteInput

/-- Events pushed on the event channel: maps with a "type" key of
"text", "images" or "unsupported". -/
inductive Event where
  | text : String → Event
  | images : List String → List String → Event
  | unsupported : Event
deriving DecidableEq, Repr

/-- Delivery through the event sink: every send function returns early
when no listener is attached (event sink null), else pushes the event. -/
def send_event (sink : Bool) (e : Event) : List Event :=
  if sink then [e] else []

/-- Method channel responses (success value simplified to the payload
string of getPlatformVersion, none for null results). -/
inductive Response where
  | success : Option String → Response
  | notImplemented : Response
deriving DecidableEq, Repr

namespace Linux

/-- Environment of one save_temp_file call: g_get_tmp_dir, the
millisecond timestamp g_get_real_time()/1000, the draw of
g_random_int_range(0, 99999) (hence at most 99998), and whether
gdk_pixbuf_save succeeds. -/
structure SaveEnv where
  temp_dir : String
  timestamp : Nat
  random : Nat
  writeOk : Bool
deriving DecidableEq, Repr

/-- Basename part of the g_strdup_printf format "%s/%s%lu_%d.%s" used by
save_temp_file, with TEMP_FILE_PREFIX = "paste_". -/
def temp_basename (e : SaveEnv) (ext : String) : String :=
  "paste_" ++ toString e.timestamp ++ "_" ++ toString e.random ++ "." ++ ext

/-- Full path synthesized by save_temp_file. -/
def mk_temp_path (e : SaveEnv) (ext : String) : String :=
  e.temp_dir ++ "/" ++ temp_basename e ext

/-- save_temp_file: build the path, gdk_pixbuf_save the pixbuf there;
returns the path on success and null on failure. -/
def save_temp_file (e : SaveEnv) (ext : String) : Option String :=
  if e.writeOk then some (mk_temp_path e ext) else none

/-- One entry of gtk_clipboard_wait_for_uris together with the results
of the OS calls made for it: g_filename_from_uri (none = null) and
gdk_pixbuf_new_from_file (none = null; some carries the environment of
the save_temp_file call made on the loaded pixbuf). -/
structure UriEntry where
  filename : Option String
  pixbuf : Option SaveEnv
deriving DecidableEq, Repr

/-- A snapshot of the GTK clipboard: the availability answers and the
values the wait_for calls return (none = null). The image field carries
the environment of the save_temp_file call made on the pasted pixbuf. -/
structure Snapshot where
  image_available : Bool
  image : Option SaveEnv
  text_available : Bool
  text : Option String
  uris_available : Bool
  uris : Option (List UriEntry)
deriving DecidableEq, Repr

/-- Observable outcome of one process_clipboard run: the events handed
to the send functions and the temp files written on disk. -/
structure POut where
  events : List Event
  written : List String
deriving DecidableEq, Repr

/-- Body of the URI loop of process_clipboard for one entry: its
contribution to (image_uris, mime_types) and the files it writes.
A file is written exactly when gdk_pixbuf_save succeeds, which is also
exactly when a path is pushed. -/
def uri_step (x : UriEntry) : List String × List String × List String :=
  match x.filename with
  | none => ([], [], [])
  | some _ =>
    match x.pixbuf with
    | none => ([], [], [])
    | some e =>
      match save_temp_file e "png" with
      | some path => ([path], ["image/png"], [path])
      | none => ([], [], [])

/-- The URI loop of process_clipboard, in order. -/
def collect_uris : List UriEntry → List String × List String × List String
  | [] => ([], [], [])
  | x :: rest =>
    let h := uri_step x
    let t := collect_uris rest
    (h.1 ++ t.1, h.2.1 ++ t.2.1, h.2.2 ++ t.2.2)

/-- The "Check for image first" block of process_clipboard: none models
falling through (image not available, null pixbuf, or failed save). -/
def image_branch (sink : Bool) (s : Snapshot) : Option POut :=
  if s.image_available then
    match s.image with
    | some e =>
      match save_temp_file e "png" with
      | some path =>
        some { events := send_event sink (.images [path] ["image/png"]),
               written := [path] }
      | none => none
    | none => none
  else none

/-- The "Check for text" block of process_clipboard. -/
def text_branch (sink : Bool) (s : Snapshot) : Option POut :=
  if s.text_available then
    match s.text with
    | some t => some { events := send_event sink (.text t), written := [] }
    | none => none
  else none

/-- The "Check for URIs" block of process_clipboard: the loop runs, and
an event is sent only when some URI produced an image item. -/
def uris_branch (sink : Bool) (s : Snapshot) : Option POut :=
  if s.uris_available then
    match s.uris with
    | some entries =>
      let r := collect_uris entries
      if r.1.isEmpty then none
      else some { events := send_event sink (.images r.1 r.2.1),
                  written := r.2.2 }
    | none => none
  else none

/-- process_clipboard: try an image first, then text, then file URIs,
each branch sending its event and returning early on success; the
fall-through at the bottom sends an unsupported event. -/
def process_clipboard (sink : Bool) (s : Snapshot) : POut :=
  match image_branch sink s with
  | some out => out
  | none =>
    match text_branch sink s with
    | some out => out
    | none =>
      match uris_branch sink s with
      | some out => out
      | none => { events := send_event sink .unsupported, written := [] }

/-- g_str_has_prefix(name, TEMP_FILE_PREFIX). -/
def is_paste_name (n : String) : Bool :=
  "paste_".data.isPrefixOf n.data

/-- clear_temp_files: enumerate the temp directory (modelled as the flat
list of its entry names, g_dir_open being non-recursive) and g_unlink
every entry whose name has the paste_ prefix. -/
def clear_temp_files (dir : List String) : List String :=
  dir.filter (fun n => !(is_paste_name n))

/-- Effect of one successful save_temp_file on the temp directory
listing (the StageImage side of the staging contract). -/
def stage_image (dir : List String) (e : SaveEnv) : List String :=
  match save_temp_file e "png" with
  | some _ => dir ++ [temp_basename e "png"]
  | none => dir

/-- The two fields of struct utsname the plugin could use. -/
structure Utsname where
  release : String
  version : String
deriving DecidableEq, Repr

/-- get_platform_version: g_strdup_printf("Linux %s", uname_data.version)
— note the version field, not release. -/
def get_platform_version (u : Utsname) : String :=
  "Linux " ++ u.version

/-- flutter_paste_input_plugin_handle_method_call: dispatch on the
method name; returns the response, the process_clipboard outcome, and
the temp directory listing afterwards. -/
def handle_method_call (sink : Bool) (s : Snapshot) (u : Utsname)
    (dir : List String) (method : String) : Response × POut × List String :=
  if method = "getPlatformVersion" then
    (.success (some (get_platform_version u)), ⟨[], []⟩, dir)
  else if method = "clearTempFiles" then
    (.success none, ⟨[], []⟩, clear_temp_files dir)
  else if method = "registerView" then (.success none, ⟨[], []⟩, dir)
  else if method = "unregisterView" then (.success none, ⟨[], []⟩, dir)
  else if method = "checkClipboard" then
    (.success none, process_clipboard sink s, dir)
  else (.notImplemented, ⟨[], []⟩, dir)

end Linux

namespace Win

/-- Inputs of one SaveBitmapToFile call: the GetTempPathW result (""
models failure, otherwise it carries its trailing backslash), the
millisecond timestamp, the uniform_int_distribution(0, 99999) draw, and
success of Bitmap::FromHBITMAP, GetEncoderClsid and Bitmap::Save. -/
structure WSaveEnv where
  temp_path : String
  timestamp : Nat
  random : Nat
  fromHOk : Bool
  encoderOk : Bool
  saveOk : Bool
deriving DecidableEq, Repr

/-- Filename part built by the wostringstream of SaveBitmapToFile, with
kTempFilePrefix = "paste_". -/
def temp_filename (e : WSaveEnv) : String :=
  "paste_" ++ toString e.timestamp ++ "_" ++ toString e.random ++ ".png"

/-- SaveBitmapToFile: build <temp>\paste_<ms>_<r>.png and have GDI+ save
the bitmap there as PNG; "" signals failure at any step. -/
def SaveBitmapToFile (e : WSaveEnv) : String :=
  if e.temp_path = "" then ""
  else if !e.fromHOk then ""
  else if !e.encoderOk then ""
  else if !e.saveOk then ""
  else e.temp_path ++ "\\" ++ temp_filename e

/-- towlower on the wide characters of a filename (ASCII lowering). -/
def towlower (c : Char) : Char := c.toLower

/-- DragQueryFileW queried for a length len returns len (the name
without its terminating NUL); the plugin then allocates a wstring of
len + 1 NULs and lets DragQueryFileW fill it, so the wstring keeps the
terminating NUL as its last character. -/
def drag_query_file (name : List Char) : List Char :=
  name ++ [Char.ofNat 0]

/-- wstring::find_last_of for a single character: index of its last
occurrence, none (npos) when absent. -/
def find_last_of : List Char → Char → Option Nat
  | [], _ => none
  | a :: rest, c =>
    match find_last_of rest c with
    | some i => some (i + 1)
    | none => if a = c then some 0 else none

/-- The one C++ exception this code can raise. -/
inductive WinExn where
  | out_of_range
deriving DecidableEq, Repr

/-- wstring::substr(pos): throws std::out_of_range when pos > size(),
in particular at pos = npos when find_last_of found nothing. -/
def substr_from (s : List Char) (pos : Option Nat) : Except WinExn (List Char) :=
  match pos with
  | none => .error .out_of_range
  | some p => .ok (s.drop p)

/-- WideToUtf8: WideCharToMultiByte with cchWideChar = -1 converts the
buffer up to its first NUL. -/
def wideToUtf8 (s : List Char) : String :=
  String.mk (s.takeWhile (fun c => c ≠ Char.ofNat 0))

/-- The extension-to-mime-type chain of the CF_HDROP loop, applied to
the lowercased ext (which begins at the last dot). -/
def ext_mime (ext : List Char) : Option String :=
  if ext = ".png".data then some "image/png"
  else if ext = ".jpg".data ∨ ext = ".jpeg".data then some "image/jpeg"
  else if ext = ".gif".data then some "image/gif"
  else if ext = ".bmp".data then some "image/bmp"
  else none

/-- Body of the CF_HDROP loop for one dropped file: read the name, take
the substring from the last dot (std::out_of_range when there is no
dot), lowercase it and look it up; ok none when the extension is
unrecognized, ok (uri, mime) when it matches. -/
def classify_entry (name : List Char) : Except WinExn (Option (String × String)) :=
  let filename := drag_query_file name
  match substr_from filename (find_last_of filename '.') with
  | .error e => .error e
  | .ok raw =>
    match ext_mime (raw.map towlower) with
    | some mt => .ok (some (wideToUtf8 filename, mt))
    | none => .ok none

/-- The CF_HDROP loop over all dropped files, accumulating uris and
mime types in order; an exception aborts the whole loop. -/
def drop_loop : List (List Char) → Except WinExn (List String × List String)
  | [] => .ok ([], [])
  | name :: rest =>
    match classify_entry name with
    | .error e => .error e
    | .ok none => drop_loop rest
    | .ok (some (uri, mt)) =>
      match drop_loop rest with
      | .error e => .error e
      | .ok (us, ms) => .ok (uri :: us, mt :: ms)

/-- A snapshot of the Win32 clipboard and the results of the OS calls
made while processing it. For the two text fields the outer none models
a null GetClipboardData handle and the inner none a null GlobalLock. -/
structure Snapshot where
  openOk : Bool
  has_bitmap : Bool
  has_dib : Bool
  bitmap : Option WSaveEnv
  has_unicode : Bool
  unicode_data : Option (Option String)
  has_ansi : Bool
  ansi_data : Option (Option String)
  has_drop : Bool
  drop : Option (List (List Char))
deriving DecidableEq, Repr

/-- Observable outcome of ProcessClipboard: events delivered, temp
files written, and how many times CloseClipboard ran. -/
structure WOut where
  events : List Event
  written : List String
  closes : Nat
deriving DecidableEq, Repr

/-- The "Check for bitmap first" block of ProcessClipboard: none models
falling through (format unavailable, null handle, or failed save). -/
def image_step (sink : Bool) (s : Snapshot) : Option WOut :=
  if s.has_bitmap || s.has_dib then
    match s.bitmap with
    | some e =>
      let path := SaveBitmapToFile e
      if path ≠ "" then
        some { events := send_event sink (.images [path] ["image/png"]),
               written := [path], closes := 1 }
      else none
    | none => none
  else none

/-- The "Check for text" (CF_UNICODETEXT) block of ProcessClipboard. -/
def uni_step (sink : Bool) (s : Snapshot) : Option WOut :=
  if s.has_unicode then
    match s.unicode_data with
    | some (some t) =>
      some { events := send_event sink (.text t), written := [], closes := 1 }
    | _ => none
  else none

/-- The "Check for ANSI text" (CF_TEXT) block of ProcessClipboard. -/
def ansi_step (sink : Bool) (s : Snapshot) : Option WOut :=
  if s.has_ansi then
    match s.ansi_data with
    | some (some t) =>
      some { events := send_event sink (.text t), written := [], closes := 1 }
    | _ => none
  else none

/-- The "Check for file drop" (CF_HDROP) block of ProcessClipboard; it
can throw, and sends its event only when the uris list is non-empty. -/
def drop_step (sink : Bool) (s : Snapshot) : Except WinExn (Option WOut) :=
  if s.has_drop then
    match s.drop with
    | some files =>
      match drop_loop files with
      | .error e => .error e
      | .ok (us, ms) =>
        if us.isEmpty then .ok none
        else .ok (some { events := send_event sink (.images us ms),
                         written := [], closes := 1 })
    | none => .ok none
  else .ok none

/-- ProcessClipboard: open the clipboard (unsupported event when that
fails, and no CloseClipboard), then try bitmap, Unicode text, ANSI text
and file drop in that order; each successful step closes the clipboard,
sends its event and returns; failures fall through to the bottom, which
closes the clipboard and sends an unsupported event. -/
def ProcessClipboard (sink : Bool) (s : Snapshot) : Except WinExn WOut :=
  if !s.openOk then
    .ok { events := send_event sink .unsupported, written := [], closes := 0 }
  else
    match image_step sink s with
    | some out => .ok out
    | none =>
      match uni_step sink s with
      | some out => .ok out
      | none =>
        match ansi_step sink s with
        | some out => .ok out
        | none =>
          match drop_step sink s with
          | .error e => .error e
          | .ok (some out) => .ok out
          | .ok none =>
            .ok { events := send_event sink .unsupported, written := [], closes := 1 }

/-- The three VersionHelpers probes getPlatformVersion consults. -/
structure VerProbe where
  is10 : Bool
  is8 : Bool
  is7 : Bool
deriving DecidableEq, Repr

/-- The getPlatformVersion branch of HandleMethodCall: stream "Windows "
then the first matching suffix; nothing is appended when even
IsWindows7OrGreater fails. -/
def platform_version (v : VerProbe) : String :=
  "Windows " ++ (if v.is10 then "10+" else if v.is8 then "8"
                 else if v.is7 then "7" else "")

/-- The FindFirstFileW pattern <temp>\paste_* matches exactly the
entries whose name begins with paste_ (8.3 alias names not modelled). -/
def matches_paste (n : String) : Bool :=
  "paste_".data.isPrefixOf n.data

/-- ClearTempFiles: DeleteFileW every match of <temp>\paste_*, the
enumeration being non-recursive. -/
def ClearTempFiles (dir : List String) : List String :=
  dir.filter (fun n => !(matches_paste n))

/-- Effect of one successful SaveBitmapToFile on the temp directory
listing. -/
def stage_image (dir : List String) (e : WSaveEnv) : List String :=
  if SaveBitmapToFile e ≠ "" then dir ++ [temp_filename e] else dir

/-- HandleMethodCall: method dispatch; an exception thrown inside
ProcessClipboard escapes the handler uncaught. -/
def HandleMethodCall (sink : Bool) (s : Snapshot) (v : VerProbe)
    (dir : List String) (method : String) :
    Except WinExn (Response × List Event × List String) :=
  if method = "getPlatformVersion" then
    .ok (.success (some (platform_version v)), [], dir)
  else if method = "clearTempFiles" then .ok (.success none, [], ClearTempFiles dir)
  else if method = "registerView" then .ok (.success none, [], dir)
  else if method = "unregisterView" then .ok (.success none, [], dir)
  else if method = "checkClipboard" then
    match ProcessClipboard sink s with
    | .error e => .error e
    | .ok out => .ok (.success none, out.events, dir)
  else .ok (.notImplemented, [], dir)

end Win

/-- The staged-path shape asserted by the specification: a five-digit
random field between the timestamp and ".png". Modelled from the spec
for comparison with the path the code actually builds. -/
def spec_five_digit_path (tempDir : String) (ts : Nat) (path : String) : Prop :=
  ∃ d : String, d.length = 5 ∧ (∀ c ∈ d.data, c.isDigit) ∧
    path = tempDir ++ "/paste_" ++ toString ts ++ "_" ++ d ++ ".png"

end PasteInput

namespace PasteInput

namespace Linux

theorem image_branch_cases (sink : Bool) (s : Snapshot) :
    image_branch sink s = none ∨ ∃ ev w, image_branch sink s = some ⟨send_event sink ev, w⟩ := by
  unfold image_branch
  cases hav : s.image_available with
  | false => simp
  | true =>
    cases him : s.image with
    | none => simp [him]
    | some e =>
      cases hsv : save_temp_file e "png" with
      | none => simp [him, hsv]
      | some p =>
        right
        exact ⟨Event.images [p] ["image/png"], [p], by simp [him, hsv]⟩

theorem text_branch_cases (sink : Bool) (s : Snapshot) :
    text_branch sink s = none ∨ ∃ ev w, text_branch sink s = some ⟨send_event sink ev, w⟩ := by
  unfold text_branch
  cases hav : s.text_available with
  | false => simp
  | true =>
    cases htx : s.text with
    | none => simp [htx]
    | some t => right; exact ⟨Event.text t, [], by simp [htx]⟩

theorem uris_branch_cases (sink : Bool) (s : Snapshot) :
    uris_branch sink s = none ∨ ∃ ev w, uris_branch sink s = some ⟨send_event sink ev, w⟩ := by
  unfold uris_branch
  cases hav : s.uris_available with
  | false => simp
  | true =>
    cases hur : s.uris with
    | none => simp [hur]
    | some entries =>
      by_cases hemp : (collect_uris entries).1.isEmpty
      · simp [hur, hemp]
      · right
        exact ⟨Event.images (collect_uris entries).1 (collect_uris entries).2.1,
               (collect_uris entries).2.2, by simp [hur, hemp]⟩

end Linux

namespace Win

theorem image_step_cases (sink : Bool) (s : Snapshot) :
    image_step sink s = none ∨ ∃ ev w, image_step sink s = some ⟨send_event sink ev, w, 1⟩ := by
  unfold image_step
  by_cases hav : (s.has_bitmap || s.has_dib) = true
  · cases hbm : s.bitmap with
    | none => simp [hav, hbm]
    | some e =>
      by_cases hp : SaveBitmapToFile e = ""
      · simp [hav, hbm, hp]
      · right
        exact ⟨Event.images [SaveBitmapToFile e] ["image/png"], [SaveBitmapToFile e],
               by simp [hav, hbm, hp]⟩
  · simp [hav]

theorem uni_step_cases (sink : Bool) (s : Snapshot) :
    uni_step sink s = none ∨ ∃ ev w, uni_step sink s = some ⟨send_event sink ev, w, 1⟩ := by
  unfold uni_step
  cases hav : s.has_unicode with
  | false => simp
  | true =>
    cases hud : s.unicode_data with
    | none => simp [hud]
    | some o =>
      cases o with
      | none => simp [hud]
      | some t => right; exact ⟨Event.text t, [], by simp [hud]⟩

theorem ansi_step_cases (sink : Bool) (s : Snapshot) :
    ansi_step sink s = none ∨ ∃ ev w, ansi_step sink s = some ⟨send_event sink ev, w, 1⟩ := by
  unfold ansi_step
  cases hav : s.has_ansi with
  | false => simp
  | true =>
    cases had : s.ansi_data with
    | none => simp [had]
    | some o =>
      cases o with
      | none => simp [had]
      | some t => right; exact ⟨Event.text t, [], by simp [had]⟩

theorem drop_step_cases (sink : Bool) (s : Snapshot) :
    (∃ e, drop_step sink s = .error e) ∨ drop_step sink s = .ok none ∨
      ∃ ev w, drop_step sink s = .ok (some ⟨send_event sink ev, w, 1⟩) := by
  unfold drop_step
  cases hav : s.has_drop with
  | false => right; left; rfl
  | true =>
    cases hdr : s.drop with
    | none => right; left; simp [hdr]
    | some files =>
      cases hdl : drop_loop files with
      | error e => left; exact ⟨e, by simp [hdr, hdl]⟩
      | ok r =>
        obtain ⟨us, ms⟩ := r
        by_cases hemp : us.isEmpty
        · right; left; simp [hdr, hdl, hemp]
        · right; right; exact ⟨Event.images us ms, [], by simp [hdr, hdl, hemp]⟩

end Win

end PasteInput

namespace PasteInput

namespace Linux

theorem process_events_send (sink : Bool) (s : Snapshot) :
    ∃ ev w, process_clipboard sink s = ⟨send_event sink ev, w⟩ := by
  unfold process_clipboard
  rcases image_branch_cases sink s with him | ⟨ev, w, him⟩
  · rw [him]
    rcases text_branch_cases sink s with htx | ⟨ev, w, htx⟩
    · rw [htx]
      rcases uris_branch_cases sink s with hur | ⟨ev, w, hur⟩
      · rw [hur]
        exact ⟨.unsupported, [], rfl⟩
      · rw [hur]; exact ⟨ev, w, rfl⟩
    · rw [htx]; exact ⟨ev, w, rfl⟩
  · rw [him]; exact ⟨ev, w, rfl⟩

theorem events_nil_no_sink (s : Snapshot) : (process_clipboard false s).events = [] := by
  obtain ⟨ev, w, h⟩ := process_events_send false s
  rw [h]
  rfl

end Linux

namespace Win

theorem win_ok_shape (sink : Bool) (s : Snapshot) (out : WOut)
    (hopen : s.openOk = true) (h : ProcessClipboard sink s = .ok out) :
    ∃ ev w, out = ⟨send_event sink ev, w, 1⟩ := by
  unfold ProcessClipboard at h
  rw [hopen] at h
  simp only [Bool.not_true, Bool.false_eq_true, if_false] at h
  rcases image_step_cases sink s with him | ⟨ev, w, him⟩
  · rw [him] at h
    rcases uni_step_cases sink s with hun | ⟨ev, w, hun⟩
    · rw [hun] at h
      rcases ansi_step_cases sink s with han | ⟨ev, w, han⟩
      · rw [han] at h
        rcases drop_step_cases sink s with ⟨e, hdr⟩ | hdr | ⟨ev, w, hdr⟩
        · rw [hdr] at h; cases h
        · rw [hdr] at h; exact ⟨.unsupported, [], (Except.ok.inj h).symm⟩
        · rw [hdr] at h; exact ⟨ev, w, (Except.ok.inj h).symm⟩
      · rw [han] at h; exact ⟨ev, w, (Except.ok.inj h).symm⟩
    · rw [hun] at h; exact ⟨ev, w, (Except.ok.inj h).symm⟩
  · rw [him] at h; exact ⟨ev, w, (Except.ok.inj h).symm⟩

theorem win_events_nil_no_sink (s : Snapshot) (out : WOut)
    (h : ProcessClipboard false s = .ok out) : out.events = [] := by
  cases hopen : s.openOk with
  | false =>
    unfold ProcessClipboard at h
    rw [hopen] at h
    simp only [Bool.not_false, if_true] at h
    cases h
    rfl
  | true =>
    obtain ⟨ev, w, ho⟩ := win_ok_shape false s out hopen h
    rw [ho]
    rfl

end Win

end PasteInput

namespace PasteInput

/-- A list isPrefixOf itself followed by anything. -/
theorem isPrefixOf_self_append (l r : List Char) : l.isPrefixOf (l ++ r) = true := by
  induction l with
  | nil => simp [List.isPrefixOf]
  | cons a t ih => simp [List.isPrefixOf, ih]

/-- Every basename save_temp_file synthesizes carries the paste_ tag. -/
theorem linux_basename_is_paste (e : Linux.SaveEnv) (ext : String) :
    Linux.is_paste_name (Linux.temp_basename e ext) = true := by
  have h : (Linux.temp_basename e ext).data =
      "paste_".data ++ ((toString e.timestamp).data ++ ("_".data ++
        ((toString e.random).data ++ (".".data ++ ext.data)))) := by
    simp [Linux.temp_basename]
  simp [Linux.is_paste_name, h, isPrefixOf_self_append]

/-- Every filename SaveBitmapToFile synthesizes carries the paste_ tag. -/
theorem win_filename_is_paste (e : Win.WSaveEnv) :
    Win.matches_paste (Win.temp_filename e) = true := by
  have h : (Win.temp_filename e).data =
      "paste_".data ++ ((toString e.timestamp).data ++ ("_".data ++
        ((toString e.random).data ++ ".png".data))) := by
    simp [Win.temp_filename]
  simp [Win.matches_paste, h, isPrefixOf_self_append]

/-- The Linux staged basename ends in ".png". -/
theorem linux_png_suffix (e : Linux.SaveEnv) :
    ".png".data <:+ (Linux.temp_basename e "png").data := by
  have h : (Linux.temp_basename e "png").data =
      ("paste_".data ++ (toString e.timestamp).data ++ "_".data ++
        (toString e.random).data) ++ ".png".data := by
    simp [Linux.temp_basename]
  rw [h]
  exact List.suffix_append _ _

/-- The Windows staged filename ends in ".png". -/
theorem win_png_suffix (e : Win.WSaveEnv) :
    ".png".data <:+ (Win.temp_filename e).data := by
  have h : (Win.temp_filename e).data =
      ("paste_".data ++ (toString e.timestamp).data ++ "_".data ++
        (toString e.random).data) ++ ".png".data := by
    simp [Win.temp_filename]
  rw [h]
  exact List.suffix_append _ _

/-- Claim C1: both event-transport classifiers try image before text
and report only the first matching category with an early return: for
every snapshot where both an image and text are available and the image
is successfully staged, the emitted events are exactly one images event
and no text event (on Windows additionally with one CloseClipboard and
the staged file written). -/
theorem image_priority_single_event :
    (∀ (s : Linux.Snapshot) (e : Linux.SaveEnv),
      s.image_available = true → s.image = some e → e.writeOk = true →
      s.text_available = true →
      (Linux.process_clipboard true s).events =
        [Event.images [Linux.mk_temp_path e "png"] ["image/png"]])
    ∧ (∀ (s : Win.Snapshot) (e : Win.WSaveEnv),
      s.openOk = true → s.has_bitmap = true → s.bitmap = some e →
      Win.SaveBitmapToFile e ≠ "" → s.has_unicode = true →
      Win.ProcessClipboard true s =
        .ok ⟨[Event.images [Win.SaveBitmapToFile e] ["image/png"]],
             [Win.SaveBitmapToFile e], 1⟩) := by
  constructor
  · intro s e hav him hwr htxt
    have hib : Linux.image_branch true s =
        some ⟨[Event.images [Linux.mk_temp_path e "png"] ["image/png"]],
              [Linux.mk_temp_path e "png"]⟩ := by
      simp [Linux.image_branch, hav, him, Linux.save_temp_file, hwr, send_event]
    unfold Linux.process_clipboard
    rw [hib]
  · intro s e hopen hb hbm hp huni
    have his : Win.image_step true s =
        some ⟨[Event.images [Win.SaveBitmapToFile e] ["image/png"]],
              [Win.SaveBitmapToFile e], 1⟩ := by
      simp [Win.image_step, hb, hbm, hp, send_event]
    unfold Win.ProcessClipboard
    rw [hopen]
    simp only [Bool.not_true, Bool.false_eq_true, if_false]
    rw [his]

/-- Witness for claim C1 at a concrete snapshot holding both an image
(whose staging succeeds) and text. -/
theorem image_priority_single_event_witness :
    (Linux.process_clipboard true
      ⟨true, some ⟨"/tmp", 1, 2, true⟩, true, some "hi", false, none⟩).events =
      [Event.images [Linux.mk_temp_path ⟨"/tmp", 1, 2, true⟩ "png"] ["image/png"]] :=
  image_priority_single_event.1
    ⟨true, some ⟨"/tmp", 1, 2, true⟩, true, some "hi", false, none⟩
    ⟨"/tmp", 1, 2, true⟩ rfl rfl rfl rfl

/-- Claim C2 (code bug): an exception does escape the external boundary.
With the clipboard open and a CF_HDROP entry named "README" (no dot in
the filename), wstring::substr(npos) raises std::out_of_range inside
ProcessClipboard and it propagates uncaught out of HandleMethodCall. -/
theorem method_call_exception_escapes :
    Win.HandleMethodCall true
      ⟨true, false, false, none, false, none, false, none, true,
       some ["README".data]⟩
      ⟨true, false, false⟩ [] "checkClipboard" = .error .out_of_range := rfl

/-- Claim C3 (code bug): a dropped path ending in ".JPG" is NOT
classified as image/jpeg. DragQueryFileW leaves a terminating NUL in the
wstring, so the lowercased extension ".jpg\x00" matches no entry of the
mapping, the entry is skipped, and the snapshot is reported unsupported
(a ".txt" path is also skipped, as the claim says). -/
theorem hdrop_jpg_entry_skipped :
    Win.classify_entry "C:\\photo.JPG".data = .ok none
    ∧ Win.classify_entry "C:\\notes.txt".data = .ok none
    ∧ Win.ProcessClipboard true
        ⟨true, false, false, none, false, none, false, none, true,
         some ["C:\\photo.JPG".data]⟩ = .ok ⟨[Event.unsupported], [], 1⟩ :=
  ⟨rfl, rfl, rfl⟩

/-- Claim C4: on Linux, a snapshot with no image (or failed staging), no
text and no URI-derived image item yields exactly one unsupported event;
on Windows (code bug) the same property fails: a snapshot whose only
content is a file drop with the dot-less name "Makefile" makes
ProcessClipboard throw instead of sending the unsupported event. -/
theorem no_content_unsupported_event :
    (∀ s : Linux.Snapshot,
      (s.image_available = false ∨ s.image = none ∨
        ∃ e, s.image = some e ∧ e.writeOk = false) →
      (s.text_available = false ∨ s.text = none) →
      (s.uris_available = false ∨ s.uris = none ∨
        ∃ l, s.uris = some l ∧ (Linux.collect_uris l).1 = []) →
      (Linux.process_clipboard true s).events = [Event.unsupported])
    ∧ Win.ProcessClipboard true
        ⟨true, false, false, none, false, none, false, none, true,
         some ["Makefile".data]⟩ = .error .out_of_range := by
  constructor
  · intro s h1 h2 h3
    have hib : Linux.image_branch true s = none := by
      rcases h1 with h | h | ⟨e, he, hw⟩
      · simp [Linux.image_branch, h]
      · simp [Linux.image_branch, h]
      · simp [Linux.image_branch, he, Linux.save_temp_file, hw]
    have htb : Linux.text_branch true s = none := by
      rcases h2 with h | h <;> simp [Linux.text_branch, h]
    have hub : Linux.uris_branch true s = none := by
      rcases h3 with h | h | ⟨l, hl, hemp⟩
      · simp [Linux.uris_branch, h]
      · simp [Linux.uris_branch, h]
      · simp [Linux.uris_branch, hl, hemp]
    unfold Linux.process_clipboard
    rw [hib, htb, hub]
    rfl
  · rfl

/-- Witness for claim C4 at the fully empty Linux snapshot. -/
theorem no_content_unsupported_event_witness :
    (Linux.process_clipboard true ⟨false, none, false, none, false, none⟩).events =
      [Event.unsupported] :=
  no_content_unsupported_event.1 ⟨false, none, false, none, false, none⟩
    (Or.inl rfl) (Or.inl rfl) (Or.inl rfl)

/-- Claim C5: a snapshot whose only available content is the plain text
"hello" produces exactly one text event carrying "hello" and nothing
else, on both platforms. -/
theorem text_only_single_text_event :
    (∀ s : Linux.Snapshot,
      s.image_available = false → s.text_available = true → s.text = some "hello" →
      s.uris_available = false →
      (Linux.process_clipboard true s).events = [Event.text "hello"])
    ∧ (∀ s : Win.Snapshot,
      s.openOk = true → s.has_bitmap = false → s.has_dib = false →
      s.has_unicode = true → s.unicode_data = some (some "hello") →
      s.has_ansi = false → s.has_drop = false →
      Win.ProcessClipboard true s = .ok ⟨[Event.text "hello"], [], 1⟩) := by
  constructor
  · intro s hav htav htx huav
    have hib : Linux.image_branch true s = none := by simp [Linux.image_branch, hav]
    have htb : Linux.text_branch true s = some ⟨[Event.text "hello"], []⟩ := by
      simp [Linux.text_branch, htav, htx, send_event]
    unfold Linux.process_clipboard
    rw [hib, htb]
  · intro s hopen hb hd huni hud ha hdr
    have his : Win.image_step true s = none := by simp [Win.image_step, hb, hd]
    have hus : Win.uni_step true s = some ⟨[Event.text "hello"], [], 1⟩ := by
      simp [Win.uni_step, huni, hud, send_event]
    unfold Win.ProcessClipboard
    rw [hopen]
    simp only [Bool.not_true, Bool.false_eq_true, if_false]
    rw [his, hus]

/-- Witness for claim C5 at a concrete text-only Linux snapshot. -/
theorem text_only_single_text_event_witness :
    (Linux.process_clipboard true
      ⟨false, none, true, some "hello", false, none⟩).events = [Event.text "hello"] :=
  text_only_single_text_event.1 ⟨false, none, true, some "hello", false, none⟩
    rfl rfl rfl rfl

/-- Counterexample to claim C6: get_platform_version formats the utsname
version field, not the kernel release, so on a machine where the two
differ the result is not "Linux " + release; and when even
IsWindows7OrGreater fails, the Windows string is "Windows ", none of the
three strings the claim allows. -/
theorem platform_version_counterexample :
    Linux.get_platform_version ⟨"6.8.0-55-generic", "#57-Ubuntu SMP"⟩ =
      "Linux #57-Ubuntu SMP"
    ∧ Linux.get_platform_version ⟨"6.8.0-55-generic", "#57-Ubuntu SMP"⟩ ≠
      "Linux 6.8.0-55-generic"
    ∧ Win.platform_version ⟨false, false, false⟩ = "Windows "
    ∧ Win.platform_version ⟨false, false, false⟩ ∉
      (["Windows 10+", "Windows 8", "Windows 7"] : List String) :=
  ⟨rfl, by decide, rfl, by decide⟩

/-- Claim C6 as amended: the Linux implementation returns "Linux "
followed by the utsname version field (and thus differs from
"Linux " + release whenever the two fields differ); the Windows
implementation returns "Windows 10+", "Windows 8" or "Windows 7"
according to the first version probe that holds, and the bare
"Windows " when all three probes fail. -/
theorem platform_version_amended :
    (∀ u : Linux.Utsname, Linux.get_platform_version u = "Linux " ++ u.version)
    ∧ (∀ u : Linux.Utsname, u.version ≠ u.release →
        Linux.get_platform_version u ≠ "Linux " ++ u.release)
    ∧ (∀ v : Win.VerProbe, v.is10 = true → Win.platform_version v = "Windows 10+")
    ∧ (∀ v : Win.VerProbe, v.is10 = false → v.is8 = true →
        Win.platform_version v = "Windows 8")
    ∧ (∀ v : Win.VerProbe, v.is10 = false → v.is8 = false → v.is7 = true →
        Win.platform_version v = "Windows 7")
    ∧ (∀ v : Win.VerProbe, v.is10 = false → v.is8 = false → v.is7 = false →
        Win.platform_version v = "Windows ") := by
  refine ⟨fun u => rfl, ?_, ?_, ?_, ?_, ?_⟩
  · intro u hne heq
    apply hne
    have hd := congrArg String.data heq
    simp only [String.data_append] at hd
    have := List.append_cancel_left hd
    exact String.ext this
  · intro v h; simp [Win.platform_version, h]
  · intro v h1 h2; simp [Win.platform_version, h1, h2]
  · intro v h1 h2 h3; simp [Win.platform_version, h1, h2, h3]
  · intro v h1 h2 h3; simp [Win.platform_version, h1, h2, h3]

/-- Witness for the amended claim C6 on a Windows-10 probe. -/
theorem platform_version_amended_witness :
    Win.platform_version ⟨true, false, false⟩ = "Windows 10+" :=
  platform_version_amended.2.2.1 ⟨true, false, false⟩ rfl

/-- Claim C7: the sweep enumerates the temp directory non-recursively
and deletes exactly the entries whose names start with "paste_" (on both
platforms), so a successful StageImage followed by Sweep leaves zero
paste_ files, and entries without the prefix are exactly preserved. -/
theorem sweep_removes_paste_files :
    (∀ (dir : List String) (n : String),
      n ∈ Linux.clear_temp_files dir ↔ n ∈ dir ∧ Linux.is_paste_name n = false)
    ∧ (∀ (dir : List String) (e : Linux.SaveEnv), e.writeOk = true →
      (Linux.clear_temp_files (Linux.stage_image dir e)).all
          (fun n => !(Linux.is_paste_name n)) = true
      ∧ Linux.clear_temp_files (Linux.stage_image dir e) = Linux.clear_temp_files dir)
    ∧ (∀ (dir : List String) (n : String),
      n ∈ Win.ClearTempFiles dir ↔ n ∈ dir ∧ Win.matches_paste n = false)
    ∧ (∀ (dir : List String) (e : Win.WSaveEnv), Win.SaveBitmapToFile e ≠ "" →
      (Win.ClearTempFiles (Win.stage_image dir e)).all
          (fun n => !(Win.matches_paste n)) = true
      ∧ Win.ClearTempFiles (Win.stage_image dir e) = Win.ClearTempFiles dir) := by
  refine ⟨?_, ?_, ?_, ?_⟩
  · intro dir n
    simp [Linux.clear_temp_files, List.mem_filter]
  · intro dir e hwr
    have hst : Linux.stage_image dir e = dir ++ [Linux.temp_basename e "png"] := by
      simp [Linux.stage_image, Linux.save_temp_file, hwr]
    constructor
    · rw [hst]
      simp [Linux.clear_temp_files, List.all_eq_true, List.mem_filter]
    · rw [hst]
      simp [Linux.clear_temp_files, List.filter_append, linux_basename_is_paste]
  · intro dir n
    simp [Win.ClearTempFiles, List.mem_filter]
  · intro dir e hp
    have hst : Win.stage_image dir e = dir ++ [Win.temp_filename e] := by
      simp [Win.stage_image, hp]
    constructor
    · rw [hst]
      simp [Win.ClearTempFiles, List.all_eq_true, List.mem_filter]
    · rw [hst]
      simp [Win.ClearTempFiles, List.filter_append, win_filename_is_paste]

/-- Witness for claim C7: staging into a directory that also holds an
unrelated file and an old paste_ file, then sweeping. -/
theorem sweep_removes_paste_files_witness :
    Linux.clear_temp_files
        (Linux.stage_image ["keep.txt", "paste_old.png"] ⟨"/tmp", 3, 4, true⟩) =
      Linux.clear_temp_files ["keep.txt", "paste_old.png"] :=
  (sweep_removes_paste_files.2.1 ["keep.txt", "paste_old.png"] ⟨"/tmp", 3, 4, true⟩ rfl).2

/-- Counterexample to claim C8: the random field is printed unpadded
("%d" / operator<<), so with draw 5 the staged path is
"/tmp/paste_1000_5.png", whose random field has one digit, not five. -/
theorem stage_path_counterexample :
    Linux.save_temp_file ⟨"/tmp", 1000, 5, true⟩ "png" = some "/tmp/paste_1000_5.png"
    ∧ ¬ spec_five_digit_path "/tmp" 1000 "/tmp/paste_1000_5.png" := by
  refine ⟨rfl, ?_⟩
  rintro ⟨d, hlen, _, heq⟩
  have hts : toString (1000 : Nat) = "1000" := rfl
  rw [hts] at heq
  have hd := congrArg (fun s : String => s.data.length) heq
  simp only [String.data_append, List.length_append] at hd
  have hdl : d.data.length = 5 := hlen
  rw [hdl] at hd
  simp at hd

/-- Claim C8 as amended: a successful StageImage returns
<tempDir>/paste_<millis>_<r>.png where r is the random draw (at most
99998 on Linux, at most 99999 on Windows) printed in decimal without
zero padding; the basename carries the paste_ tag and the ".png"
extension and the file lies in the temp directory. -/
theorem stage_path_amended :
    (∀ e : Linux.SaveEnv, e.writeOk = true → e.random ≤ 99998 →
      Linux.save_temp_file e "png" = some (e.temp_dir ++ "/" ++ Linux.temp_basename e "png")
      ∧ Linux.is_paste_name (Linux.temp_basename e "png") = true
      ∧ ".png".data <:+ (Linux.temp_basename e "png").data
      ∧ Linux.temp_basename e "png" =
          "paste_" ++ toString e.timestamp ++ "_" ++ toString e.random ++ "." ++ "png")
    ∧ (∀ e : Win.WSaveEnv, e.temp_path ≠ "" → e.fromHOk = true → e.encoderOk = true →
      e.saveOk = true → e.random ≤ 99999 →
      Win.SaveBitmapToFile e = e.temp_path ++ "\\" ++ Win.temp_filename e
      ∧ Win.matches_paste (Win.temp_filename e) = true
      ∧ ".png".data <:+ (Win.temp_filename e).data) := by
  constructor
  · intro e hwr hrnd
    refine ⟨?_, linux_basename_is_paste e "png", linux_png_suffix e, rfl⟩
    simp [Linux.save_temp_file, hwr, Linux.mk_temp_path]
  · intro e h1 h2 h3 h4 hrnd
    refine ⟨?_, win_filename_is_paste e, win_png_suffix e⟩
    simp [Win.SaveBitmapToFile, h1, h2, h3, h4]

/-- Witness for the amended claim C8 at a concrete save environment. -/
theorem stage_path_amended_witness :
    Linux.save_temp_file ⟨"/tmp", 7, 42, true⟩ "png" =
      some ("/tmp" ++ "/" ++ Linux.temp_basename ⟨"/tmp", 7, 42, true⟩ "png") :=
  (stage_path_amended.1 ⟨"/tmp", 7, 42, true⟩ rfl (by decide)).1

/-- Claim C9 (code bug): on Linux the claim holds in full generality —
with no event-channel listener attached (null sink) every send function
is a guarded no-op, checkClipboard still responds success, and on the
image path the temp file is written even though the event is dropped —
and on Windows every normally returning run delivers nothing; but the
claim's unqualified "the method call still responds with success" fails
on Windows: a null-sink checkClipboard whose clipboard holds a CF_HDROP
entry named "README" (no '.') ends in an uncaught std::out_of_range
instead of a success response. -/
theorem null_sink_silent :
    (∀ (s : Linux.Snapshot) (u : Linux.Utsname) (dir : List String),
      (Linux.handle_method_call false s u dir "checkClipboard").1 =
        Response.success none
      ∧ ((Linux.handle_method_call false s u dir "checkClipboard").2.1).events = [])
    ∧ (∀ (s : Linux.Snapshot) (e : Linux.SaveEnv),
      s.image_available = true → s.image = some e → e.writeOk = true →
      (Linux.process_clipboard false s).written = [Linux.mk_temp_path e "png"])
    ∧ (∀ (s : Win.Snapshot) (out : Win.WOut),
      Win.ProcessClipboard false s = .ok out → out.events = [])
    ∧ Win.HandleMethodCall false
        ⟨true, false, false, none, false, none, false, none, true,
         some ["README".data]⟩
        ⟨true, false, false⟩ [] "checkClipboard" = .error .out_of_range := by
  refine ⟨?_, ?_, ?_, rfl⟩
  · intro s u dir
    exact ⟨rfl, Linux.events_nil_no_sink s⟩
  · intro s e hav him hwr
    have hib : Linux.image_branch false s =
        some ⟨[], [Linux.mk_temp_path e "png"]⟩ := by
      simp [Linux.image_branch, hav, him, Linux.save_temp_file, hwr, send_event]
    unfold Linux.process_clipboard
    rw [hib]
  · exact fun s out h => Win.win_events_nil_no_sink s out h

/-- Witness for claim C9: without a sink the staged file is still
written for a concrete image-bearing snapshot. -/
theorem null_sink_silent_witness :
    (Linux.process_clipboard false
      ⟨true, some ⟨"/tmp", 1, 2, true⟩, true, some "hi", false, none⟩).written =
      [Linux.mk_temp_path ⟨"/tmp", 1, 2, true⟩ "png"] :=
  null_sink_silent.2.1
    ⟨true, some ⟨"/tmp", 1, 2, true⟩, true, some "hi", false, none⟩
    ⟨"/tmp", 1, 2, true⟩ rfl rfl rfl

/-- Claim C10: whenever OpenClipboard succeeds and ProcessClipboard
returns normally, CloseClipboard runs exactly once, on every return
path. -/
theorem close_clipboard_once :
    ∀ (sink : Bool) (s : Win.Snapshot) (out : Win.WOut),
      s.openOk = true → Win.ProcessClipboard sink s = .ok out → out.closes = 1 := by
  intro sink s out hopen h
  obtain ⟨ev, w, ho⟩ := Win.win_ok_shape sink s out hopen h
  rw [ho]

/-- Witness for claim C10 on the empty-but-open clipboard snapshot. -/
theorem close_clipboard_once_witness :
    (⟨[Event.unsupported], ([] : List String), 1⟩ : Win.WOut).closes = 1 :=
  close_clipboard_once true
    ⟨true, false, false, none, false, none, false, none, false, none⟩
    ⟨[Event.unsupported], [], 1⟩ rfl rfl

end PasteInput
